import Mathlib

/-!
Verification of the NCBI Gene MCP client bridge
(`ncbi_gene_mcp_client/bridge.py` together with the data model in
`ncbi_gene_mcp_client/models.py`).

The embedding models JSON documents, Python truthiness / `str()` / `int()`
conversions, the `Config` dataclass, the inline rate limiter, and the four
public bridge operations.  The network is an oracle mapping a URL and query
parameters to the outcome of the underlying HTTP GET; each bridge call also
produces a trace of gateway events so that rate-limit ordering and
call-count properties can be stated.
-/

namespace NCBIClient

/-- A JSON value, as produced by `response.json()`. -/
inductive J where
  | null : J
  | bool : Bool → J
  | num  : Int → J
  | str  : String → J
  | arr  : List J → J
  | obj  : List (String × J) → J
deriving Repr, Inhabited

/-- Python truthiness of a JSON value: `None`, `False`, `0`, `""`, `[]`
and the empty dict are falsy, everything else truthy. -/
def J.falsy : J → Bool
  | .null => true
  | .bool b => !b
  | .num n => n == 0
  | .str s => s.data.isEmpty
  | .arr l => l.isEmpty
  | .obj l => l.isEmpty

/-- Association-list lookup for a JSON object: the value stored under a key
(first occurrence), `none` when the key is absent.  Mirrors Python dict
indexing on the decoded JSON object. -/
def jlookup (k : String) : List (String × J) → Option J
  | [] => none
  | (k', v) :: rest => if k' = k then some v else jlookup k rest

mutual

/-- Python `repr()` of a decoded JSON value (`None`, `True`, quoted
strings, bracketed lists, braced dicts). -/
def pyRepr : J → String
  | .null => "None"
  | .bool true => "True"
  | .bool false => "False"
  | .num n => toString n
  | .str s => "\x27" ++ s ++ "\x27"
  | .arr l => "[" ++ pyReprList l ++ "]"
  | .obj l => "\x7b" ++ pyReprObj l ++ "\x7d"

/-- `repr()` of the elements of a Python list, comma separated. -/
def pyReprList : List J → String
  | [] => ""
  | [v] => pyRepr v
  | v :: rest => pyRepr v ++ ", " ++ pyReprList rest

/-- `repr()` of the entries of a Python dict, comma separated. -/
def pyReprObj : List (String × J) → String
  | [] => ""
  | [(k, v)] => "\x27" ++ k ++ "\x27: " ++ pyRepr v
  | (k, v) :: rest => "\x27" ++ k ++ "\x27: " ++ pyRepr v ++ ", " ++ pyReprObj rest

end

/-- Python `str()` of a decoded JSON value: a string is rendered without
quotes, everything else as its `repr()`. -/
def pyStr : J → String
  | .str s => s
  | v => pyRepr v

/-- Python `str.strip()`: remove leading and trailing whitespace. -/
def pyStrip (s : String) : String :=
  ⟨((s.data.dropWhile Char.isWhitespace).reverse.dropWhile Char.isWhitespace).reverse⟩

/-- Helper for `pySplitComma`: walk the characters, cutting at every
comma; `acc` holds the current piece reversed. -/
def splitCommaAux : List Char → List Char → List String
  | [], acc => [⟨acc.reverse⟩]
  | c :: rest, acc =>
      if c = ',' then ⟨acc.reverse⟩ :: splitCommaAux rest []
      else splitCommaAux rest (c :: acc)

/-- Python `str.split(",")`: split at every comma, keeping empty pieces
(so the empty string splits to `[""]`). -/
def pySplitComma (s : String) : List String := splitCommaAux s.data []

/-- Decimal value of a digit run (most significant first). -/
def digitsToNat : List Char → Nat → Nat
  | [], acc => acc
  | c :: rest, acc => digitsToNat rest (acc * 10 + (c.toNat - 48))

/-- Integer parsing of a string as Python `int()` does: surrounding
whitespace is ignored, an optional sign precedes a non-empty digit run. -/
def pyIntOfString (s : String) : Option Int :=
  let core : List Char → Option Int := fun d =>
    if d.isEmpty then none
    else if d.all Char.isDigit then some (digitsToNat d 0 : Int) else none
  match (pyStrip s).data with
  | '-' :: rest => (core rest).map (fun n => -n)
  | '+' :: rest => core rest
  | t => core t

/-- Python `int()` applied to a decoded JSON value: integers pass through,
booleans become 0/1, numeric strings are parsed; anything else raises
(`none` here). -/
def pyInt : J → Option Int
  | .num n => some n
  | .bool b => some (if b then 1 else 0)
  | .str s => pyIntOfString s
  | _ => none

/-- A raised Python exception: its class name and message. -/
structure PyErr where
  cls : String
  msg : String
deriving Repr, DecidableEq

/-- `AttributeError` raised when `.get` is called on a non-dict. -/
def attributeError : PyErr :=
  ⟨"AttributeError", "object has no attribute \x27get\x27"⟩

/-- `ValueError` raised by `int()` on an unparsable argument. -/
def valueError (v : J) : PyErr :=
  ⟨"ValueError", "invalid literal for int() with base 10: " ++ pyRepr v⟩

/-- Pydantic validation failure when a response field has the wrong type
for the declared model field. -/
def validationError : PyErr := ⟨"ValidationError", "validation error"⟩

/-- `dict.get(k, default)` on a decoded JSON value: on a dict, the stored
value (even `null`) or the default; on anything else Python raises
`AttributeError`. -/
def J.get (j : J) (k : String) (default : J) : Except PyErr J :=
  match j with
  | .obj fs => .ok ((jlookup k fs).getD default)
  | _ => .error attributeError

/-- Pydantic check for a `str` field: accepts exactly a JSON string. -/
def asStr : J → Except PyErr String
  | .str s => .ok s
  | _ => .error validationError

/-- Pydantic check for an `Optional[str]` field: `null` is `None`, a JSON
string passes, anything else fails validation. -/
def asOptStr : J → Except PyErr (Option String)
  | .null => .ok none
  | .str s => .ok (some s)
  | _ => .error validationError

/-- Pydantic check for an `Optional[int]` field: `null` is `None`, an
integer passes, a numeric string is coerced, anything else fails. -/
def asOptInt : J → Except PyErr (Option Int)
  | .null => .ok none
  | .num n => .ok (some n)
  | .str s =>
      match pyIntOfString s with
      | some n => .ok (some n)
      | none => .error validationError
  | _ => .error validationError

/-- Pydantic check for a `List[str]` field: a JSON array all of whose
elements are strings. -/
def asStrList : List J → Except PyErr (List String)
  | [] => .ok []
  | .str s :: rest => (asStrList rest).map (fun l => s :: l)
  | _ :: _ => .error validationError

/-- The `Config` dataclass of `bridge.py`: base URL, optional credentials,
request timeout and the minimum delay between requests (seconds, modelled
as rationals). -/
structure Config where
  base_url : String
  email : Option String
  api_key : Option String
  timeout : ℚ
  request_delay : ℚ
deriving Repr, DecidableEq

/-- The default `Config()`: NCBI eutils base URL, no credentials, 30 s
timeout, 0.34 s delay. -/
def Config.default : Config :=
  ⟨"https://eutils.ncbi.nlm.nih.gov/entrez/eutils", none, none, 30, 17/50⟩

/-- Constructing a `Config`: the dataclass has no `__post_init__` and no
validators, so construction always succeeds with exactly the given field
values. -/
def Config.construct (base_url : String) (email api_key : Option String)
    (timeout request_delay : ℚ) : Except PyErr Config :=
  .ok ⟨base_url, email, api_key, timeout, request_delay⟩

/-- The rate limiter state: `self.last_request_time`, initialised to the
sentinel `0` in `NCBIBridge.__init__`. -/
structure RLState where
  last_request_time : ℚ
deriving Repr, DecidableEq

/-- `self.last_request_time = 0` from `NCBIBridge.__init__`. -/
def initRLState : RLState := ⟨0⟩

/-- `NCBIBridge._rate_limit`, with the wall clock passed explicitly:
reads the current time, sleeps for the remainder of `request_delay` when
the elapsed time since `last_request_time` is below it, then stores the
(post-sleep) current time.  Returns the slept duration and the new state;
`time.sleep(d)` is modelled as advancing the clock by exactly `d`, with no
time passing between the statements. -/
def rate_limit (delay : ℚ) (s : RLState) (now : ℚ) : ℚ × RLState :=
  let time_since_last := now - s.last_request_time
  if time_since_last < delay then
    let wait := delay - time_since_last
    (wait, ⟨now + wait⟩)
  else
    (0, ⟨now⟩)

/-- A gateway event: a `_rate_limit` call or the HTTP GET issued to the
upstream service. -/
inductive Event where
  | acquire : Event
  | httpGet (url : String) (params : List (String × J)) : Event

/-- Whether an event is the rate-limiter acquisition. -/
def Event.isAcquire : Event → Bool
  | .acquire => true
  | _ => false

/-- Whether an event is an HTTP GET to the upstream service. -/
def Event.isHttpGet : Event → Bool
  | .httpGet _ _ => true
  | _ => false

/-- Outcome of one `session.get`: a timeout, or a reply carrying the HTTP
status, the body text, and the decoded JSON body (`none` when the body is
not valid JSON). -/
inductive NetResult where
  | timeout : NetResult
  | reply (status : Nat) (text : String) (body : Option J) : NetResult

/-- The upstream service as a deterministic snapshot: what one HTTP GET to
a given URL with given query parameters returns. -/
def Upstream := String → List (String × J) → NetResult

/-- `requests.exceptions.Timeout` surfaced when the request times out. -/
def timeoutError : PyErr := ⟨"Timeout", "request timed out"⟩

/-- `JSONDecodeError` raised by `response.json()` on a non-JSON body. -/
def jsonDecodeError : PyErr := ⟨"JSONDecodeError", "Expecting value"⟩

/-- The generic exception raised on a non-200 status
(`raise Exception(f"NCBI API request failed with status ...")`). -/
def statusError (status : Nat) (text : String) : PyErr :=
  ⟨"Exception", "NCBI API request failed with status " ++ toString status ++ ": " ++ text⟩

/-- The generic exception raised when the gene record is missing or falsy
(`raise Exception(f"No data found for gene ID: ...")`). -/
def noDataGeneError (gene_id : String) : PyErr :=
  ⟨"Exception", "No data found for gene ID: " ++ gene_id⟩

/-- The generic exception raised when the protein record is missing or
falsy. -/
def noDataProteinError (protein_id : String) : PyErr :=
  ⟨"Exception", "No data found for protein ID: " ++ protein_id⟩

/-- `d[k] = v` on a Python dict kept as an insertion-ordered association
list: an existing key keeps its position, a new key is appended. -/
def dictSet (k : String) (v : J) : List (String × J) → List (String × J)
  | [] => [(k, v)]
  | (k', v') :: rest =>
      if k' = k then (k', v) :: rest else (k', v') :: dictSet k v rest

/-- The `common_params` dict built by `_make_request`: `retmode=json`, the
tool identifier, and — when configured — email and api_key. -/
def commonParams (cfg : Config) : List (String × J) :=
  [("retmode", .str "json"), ("tool", .str "ncbi_gene_mcp_client")]
    ++ (match cfg.email with | some e => [("email", .str e)] | none => [])
    ++ (match cfg.api_key with | some k => [("api_key", .str k)] | none => [])

/-- `params.update(common_params)`: fold `dictSet` over the common
parameters in order. -/
def updateParams (params common : List (String × J)) : List (String × J) :=
  common.foldl (fun acc kv => dictSet kv.1 kv.2 acc) params

/-- `f"{self.config.base_url}/{endpoint}.fcgi"`. -/
def mkURL (cfg : Config) (endpoint : String) : String :=
  cfg.base_url ++ "/" ++ endpoint ++ ".fcgi"

/-- `NCBIBridge._make_request`: rate-limit, build the URL, merge the
common parameters into the caller parameters, issue the GET, raise on
timeout, non-200 status, or undecodable JSON, otherwise return the decoded
body.  The first component is the trace of gateway events in the order the
call performs them. -/
def make_request (cfg : Config) (up : Upstream) (endpoint : String)
    (params : List (String × J)) : List Event × Except PyErr J :=
  let url := mkURL cfg endpoint
  let merged := updateParams params (commonParams cfg)
  ([Event.acquire, Event.httpGet url merged],
    match up url merged with
    | .timeout => .error timeoutError
    | .reply status text body =>
        if status ≠ 200 then .error (statusError status text)
        else
          match body with
          | none => .error jsonDecodeError
          | some j => .ok j)

/-- `SearchResult` from `models.py`. -/
structure SearchResult where
  count : Int
  ids : List String
  query_translation : Option String
deriving Repr, DecidableEq

/-- `GeneInfo` from `models.py` (`other_aliases` is `Optional[List[str]]`
defaulting to `None`). -/
structure GeneInfo where
  gene_id : String
  name : String
  description : String
  organism : String
  chromosome : Option String
  map_location : Option String
  gene_type : Option String
  other_aliases : Option (List String)
  summary : Option String
deriving Repr, DecidableEq

/-- `ProteinInfo` from `models.py`. -/
structure ProteinInfo where
  protein_id : String
  title : String
  organism : String
  length : Option Int
  mol_type : Option String
deriving Repr, DecidableEq

/-- The response-processing tail of `search_genes`: read `esearchresult`
(default empty dict), apply `int()` to its `count` (default 0), take its
`idlist` (default empty list) and `querytranslation`, and validate the
`SearchResult` fields. -/
def parse_search (response : J) : Except PyErr SearchResult := do
  let esearch_result ← response.get "esearchresult" (.obj [])
  let countJ ← esearch_result.get "count" (.num 0)
  let count ←
    match pyInt countJ with
    | some n => Except.ok n
    | none => Except.error (valueError countJ)
  let idsJ ← esearch_result.get "idlist" (.arr [])
  let ids ←
    match idsJ with
    | .arr l => asStrList l
    | _ => Except.error validationError
  let qtJ ← esearch_result.get "querytranslation" .null
  let query_translation ← asOptStr qtJ
  return ⟨count, ids, query_translation⟩

/-- `NCBIBridge.search_genes`: one `esearch` request, then
`parse_search`. -/
def search_genes (cfg : Config) (up : Upstream) (query : String)
    (max_results : Int) : List Event × Except PyErr SearchResult :=
  let params : List (String × J) :=
    [("db", .str "gene"), ("term", .str query), ("retmax", .num max_results)]
  let (events, r) := make_request cfg up "esearch" params
  (events, r.bind parse_search)

/-- `organism.get("scientificname", "Unknown") if isinstance(organism, dict)
else str(organism)` from `fetch_gene_info`. -/
def organismNameOf (organism : J) : J :=
  match organism with
  | .obj fs => (jlookup "scientificname" fs).getD (.str "Unknown")
  | v => .str (pyStr v)

/-- The alias extraction of `fetch_gene_info`: starting from `[]`, when the
`otheraliases` key is present and holds a string, split on "," and strip
each piece; when it holds a list, take it as-is; otherwise keep `[]`. -/
def otherAliasesJ (gfs : List (String × J)) : List J :=
  match jlookup "otheraliases" gfs with
  | some (.str s) => (pySplitComma s).map (fun a => .str (pyStrip a))
  | some (.arr l) => l
  | _ => []

/-- The `other_aliases` value handed to the `GeneInfo` constructor:
`other_aliases if other_aliases else None`, validated as
`Optional[List[str]]`. -/
def otherAliasesField (gfs : List (String × J)) : Except PyErr (Option (List String)) :=
  let oa := otherAliasesJ gfs
  if oa.isEmpty then .ok none
  else (asStrList oa).map some

/-- The response-processing tail of `fetch_gene_info`: read `result`
(default empty dict), look up the record keyed by `gene_id` (one-argument
`.get`, default `None`), raise the no-data exception when the record is
falsy, then resolve organism and aliases and validate the `GeneInfo`
fields. -/
def parse_gene (response : J) (gene_id : String) : Except PyErr GeneInfo := do
  let result ← response.get "result" (.obj [])
  let gene_data ←
    match result with
    | .obj fs => Except.ok ((jlookup gene_id fs).getD .null)
    | _ => Except.error attributeError
  if gene_data.falsy then Except.error (noDataGeneError gene_id)
  else
    match gene_data with
    | .obj gfs => do
        let organism := (jlookup "organism" gfs).getD (.obj [])
        let organismS ← asStr (organismNameOf organism)
        let other_aliases ← otherAliasesField gfs
        let name ← asStr ((jlookup "name" gfs).getD (.str ""))
        let description ← asStr ((jlookup "description" gfs).getD (.str ""))
        let chromosome ← asOptStr ((jlookup "chromosome" gfs).getD .null)
        let map_location ← asOptStr ((jlookup "maplocation" gfs).getD .null)
        let gene_type ← asOptStr ((jlookup "geneticsource" gfs).getD .null)
        let summary ← asOptStr ((jlookup "summary" gfs).getD .null)
        return ⟨gene_id, name, description, organismS, chromosome,
                map_location, gene_type, other_aliases, summary⟩
    | _ => Except.error attributeError

/-- `NCBIBridge.fetch_gene_info`: one `esummary` request, then
`parse_gene`. -/
def fetch_gene_info (cfg : Config) (up : Upstream) (gene_id : String) :
    List Event × Except PyErr GeneInfo :=
  let params : List (String × J) := [("db", .str "gene"), ("id", .str gene_id)]
  let (events, r) := make_request cfg up "esummary" params
  (events, r.bind (fun resp => parse_gene resp gene_id))

/-- The response-processing tail of `fetch_protein_info`. -/
def parse_protein (response : J) (protein_id : String) : Except PyErr ProteinInfo := do
  let result ← response.get "result" (.obj [])
  let protein_data ←
    match result with
    | .obj fs => Except.ok ((jlookup protein_id fs).getD .null)
    | _ => Except.error attributeError
  if protein_data.falsy then Except.error (noDataProteinError protein_id)
  else
    match protein_data with
    | .obj pfs => do
        let title ← asStr ((jlookup "title" pfs).getD (.str ""))
        let organism ← asStr ((jlookup "organism" pfs).getD (.str ""))
        let length ← asOptInt ((jlookup "slen" pfs).getD .null)
        let mol_type ← asOptStr ((jlookup "moltype" pfs).getD .null)
        return ⟨protein_id, title, organism, length, mol_type⟩
    | _ => Except.error attributeError

/-- `NCBIBridge.fetch_protein_info`: one `esummary` request against the
protein database, then `parse_protein`. -/
def fetch_protein_info (cfg : Config) (up : Upstream) (protein_id : String) :
    List Event × Except PyErr ProteinInfo :=
  let params : List (String × J) := [("db", .str "protein"), ("id", .str protein_id)]
  let (events, r) := make_request cfg up "esummary" params
  (events, r.bind (fun resp => parse_protein resp protein_id))

/-- The query string built by `search_by_gene_symbol`: `{symbol}[gene]`,
with ` AND {organism}[organism]` appended when `organism` is truthy. -/
def mkSymbolQuery (symbol : String) (organism : Option String) : String :=
  let q := symbol ++ "[gene]"
  match organism with
  | some o => if o.isEmpty then q else q ++ " AND " ++ o ++ "[organism]"
  | none => q

/-- The accumulation step of `search_by_gene_symbol`: fetch one id,
append the result on success, skip the id on any exception. -/
def symbolStep (cfg : Config) (up : Upstream)
    (acc : List Event × List GeneInfo) (gene_id : String) :
    List Event × List GeneInfo :=
  match (fetch_gene_info cfg up gene_id).2 with
  | .ok g => (acc.1 ++ (fetch_gene_info cfg up gene_id).1, acc.2 ++ [g])
  | .error _ => (acc.1 ++ (fetch_gene_info cfg up gene_id).1, acc.2)

/-- `NCBIBridge.search_by_gene_symbol`: build the query, search with
`max_results=10`, then fetch each returned id in order, skipping ids whose
fetch raises; the search's own exception propagates. -/
def search_by_gene_symbol (cfg : Config) (up : Upstream) (symbol : String)
    (organism : Option String) : List Event × Except PyErr (List GeneInfo) :=
  let query := mkSymbolQuery symbol organism
  let (ev1, sr) := search_genes cfg up query 10
  match sr with
  | .error e => (ev1, .error e)
  | .ok s =>
      let (ev2, genes) := s.ids.foldl (symbolStep cfg up) (ev1, [])
      (ev2, .ok genes)

/-! ### Concrete upstream fixtures -/

/-- An upstream that answers every request with a well-formed, empty
`esearch` result. -/
def upSearchOk : Upstream := fun _ _ =>
  .reply 200 "" (some (.obj [("esearchresult",
    .obj [("count", .num 0), ("idlist", .arr [])])]))

/-- An upstream whose `esearch` result carries a non-numeric `count`. -/
def upBadCount : Upstream := fun _ _ =>
  .reply 200 "" (some (.obj [("esearchresult",
    .obj [("count", .str "abc"), ("idlist", .arr [])])]))

/-- An upstream that answers every request with HTTP status 500. -/
def up500 : Upstream := fun _ _ => .reply 500 "oops" none

/-- An upstream whose `esummary` result mapping is empty: every requested
id is absent. -/
def upEmptyResult : Upstream := fun _ _ =>
  .reply 200 "" (some (.obj [("result", .obj [])]))

/-- An upstream whose result mapping binds id "672" to an empty (falsy)
record. -/
def upFalsy672 : Upstream := fun _ _ =>
  .reply 200 "" (some (.obj [("result", .obj [("672", .obj [])])]))

/-- An upstream whose gene record for "672" has a JSON `null` organism
field. -/
def upOrgNull : Upstream := fun _ _ =>
  .reply 200 "" (some (.obj [("result", .obj [("672", .obj [("organism", .null)])])]))

/-- An upstream whose gene record for "672" has a bare-string organism
field. -/
def upOrgStr : Upstream := fun _ _ =>
  .reply 200 "" (some (.obj [("result",
    .obj [("672", .obj [("organism", .str "Homo sapiens")])])]))

/-- An upstream whose gene record for "672" has a name but no
`otheraliases` field. -/
def upNoAliases : Upstream := fun _ _ =>
  .reply 200 "" (some (.obj [("result", .obj [("672", .obj [("name", .str "BRCA1")])])]))

/-- An upstream whose gene record for "672" carries only the comma-joined
alias string. -/
def upAliases672 : Upstream := fun _ _ =>
  .reply 200 "" (some (.obj [("result",
    .obj [("672", .obj [("otheraliases", .str "TP53, p53, TRP53")])])]))

/-- The gene-672 summary record used by the partial-success fixture. -/
def fixGene672 : J := .obj [
  ("name", .str "BRCA1"),
  ("description", .str "BRCA1 DNA repair associated"),
  ("organism", .obj [("scientificname", .str "Homo sapiens")]),
  ("chromosome", .str "17"),
  ("maplocation", .str "17q21.31"),
  ("geneticsource", .str "genomic"),
  ("otheraliases", .str "IRIS, PSCP")]

/-- The `GeneInfo` entity obtained from `fixGene672`. -/
def gene672Info : GeneInfo :=
  ⟨"672", "BRCA1", "BRCA1 DNA repair associated", "Homo sapiens",
   some "17", some "17q21.31", some "genomic", some ["IRIS", "PSCP"], none⟩

/-- The partial-success fixture: the search returns ids `["672","675"]`,
the summary endpoint knows record 672 but has no record under 675. -/
def upC4 : Upstream := fun url params =>
  if url = mkURL Config.default "esearch" then
    .reply 200 "" (some (.obj [("esearchresult", .obj
      [("count", .str "2"), ("idlist", .arr [.str "672", .str "675"])])]))
  else if url = mkURL Config.default "esummary" then
    match jlookup "id" params with
    | some (.str "672") =>
        .reply 200 "" (some (.obj [("result", .obj [("672", fixGene672)])]))
    | _ => .reply 200 "" (some (.obj [("result", .obj [])]))
  else .reply 404 "not found" none

/-! ### Helper lemmas -/

/-- The error class of a fallible outcome. -/
def errClass : Except PyErr α → Option String
  | .error e => some e.cls
  | .ok _ => none

theorem fetch_gene_info_val (cfg : Config) (up : Upstream) (gene_id : String) :
    (fetch_gene_info cfg up gene_id).2 =
      ((make_request cfg up "esummary" [("db", .str "gene"), ("id", .str gene_id)]).2).bind
        (fun resp => parse_gene resp gene_id) := rfl

theorem fetch_protein_info_val (cfg : Config) (up : Upstream) (protein_id : String) :
    (fetch_protein_info cfg up protein_id).2 =
      ((make_request cfg up "esummary" [("db", .str "protein"), ("id", .str protein_id)]).2).bind
        (fun resp => parse_protein resp protein_id) := rfl

theorem search_genes_val (cfg : Config) (up : Upstream) (query : String) (n : Int) :
    (search_genes cfg up query n).2 =
      ((make_request cfg up "esearch"
        [("db", .str "gene"), ("term", .str query), ("retmax", .num n)]).2).bind
        parse_search := rfl

theorem asStrList_map_str : ∀ l : List String, asStrList (l.map J.str) = .ok l := by
  intro l
  induction l with
  | nil => rfl
  | cons s rest ih => simp [asStrList, ih, Except.map]

theorem parse_gene_notfound (fs rfs : List (String × J)) (id : String)
    (h1 : jlookup "result" fs = some (.obj rfs))
    (h2 : ((jlookup id rfs).getD .null).falsy = true) :
    parse_gene (.obj fs) id = .error (noDataGeneError id) := by
  simp [parse_gene, J.get, h1, h2, bind, Except.bind]

theorem parse_protein_notfound (fs rfs : List (String × J)) (id : String)
    (h1 : jlookup "result" fs = some (.obj rfs))
    (h2 : ((jlookup id rfs).getD .null).falsy = true) :
    parse_protein (.obj fs) id = .error (noDataProteinError id) := by
  simp [parse_protein, J.get, h1, h2, bind, Except.bind]

theorem symbolFold_genes (cfg : Config) (up : Upstream) :
    ∀ (ids : List String) (acc : List Event × List GeneInfo),
      (ids.foldl (symbolStep cfg up) acc).2
        = acc.2 ++ ids.filterMap (fun id => ((fetch_gene_info cfg up id).2).toOption) := by
  intro ids
  induction ids with
  | nil => intro acc; simp
  | cons id rest ih =>
      intro acc
      rw [List.foldl_cons, ih, List.filterMap_cons]
      rcases h : (fetch_gene_info cfg up id).2 with e | g
      · simp [symbolStep, h, Except.toOption]
      · simp [symbolStep, h, Except.toOption]

theorem symbolFold_trace_count (cfg : Config) (up : Upstream) (p : Event → Bool) :
    ∀ (ids : List String) (acc : List Event × List GeneInfo),
      acc.1.countP p ≤ ((ids.foldl (symbolStep cfg up) acc)).1.countP p := by
  intro ids
  induction ids with
  | nil => intro acc; simp
  | cons id rest ih =>
      intro acc
      rw [List.foldl_cons]
      refine le_trans ?_ (ih _)
      rcases h : (fetch_gene_info cfg up id).2 with e | g <;>
        simp [symbolStep, h, List.countP_append]

/-! ### Claim theorems -/

/-- C1, counterexample: calling `search_genes` with an empty query does
not fail with any `InvalidArgumentError` before a network call — the
gateway is invoked exactly once and, with a well-formed upstream, the call
succeeds. -/
theorem search_genes_empty_query_invokes_gateway :
    (search_genes Config.default upSearchOk "" 20).1.countP Event.isHttpGet = 1
    ∧ (search_genes Config.default upSearchOk "" 20).2 = .ok ⟨0, [], none⟩ :=
  ⟨rfl, rfl⟩

/-- C1, amended: the bridge operations perform no argument validation.
With an empty (or blank) required string argument, `search_genes`,
`fetch_gene_info` and `fetch_protein_info` each still invoke the gateway
exactly once, and `search_by_gene_symbol` invokes it at least once. -/
theorem bridge_operations_skip_argument_validation (cfg : Config) (up : Upstream) (n : Int) :
    (search_genes cfg up "" n).1.countP Event.isHttpGet = 1
    ∧ (fetch_gene_info cfg up "").1.countP Event.isHttpGet = 1
    ∧ (fetch_protein_info cfg up "").1.countP Event.isHttpGet = 1
    ∧ 1 ≤ (search_by_gene_symbol cfg up "" none).1.countP Event.isHttpGet := by
  refine ⟨rfl, rfl, rfl, ?_⟩
  have hev : (search_genes cfg up (mkSymbolQuery "" none) 10).1.countP Event.isHttpGet = 1 := rfl
  rcases h : (search_genes cfg up (mkSymbolQuery "" none) 10).2 with e | s
  · simp [search_by_gene_symbol, h, hev]
  · simp only [search_by_gene_symbol, h]
    exact le_trans (le_of_eq hev.symm)
      (symbolFold_trace_count cfg up Event.isHttpGet s.ids
        ((search_genes cfg up (mkSymbolQuery "" none) 10).1, []))

/-- C7: the rate limiter (i) returns at a moment at least
`request_delay` after the stored previous-return time, (ii) does not
sleep when the elapsed time already reaches the delay, (iii) stores the
post-return current time, and (iv) with the sentinel initial state does
not sleep provided the clock reads at least the delay. -/
theorem rate_limit_min_interval (delay last now : ℚ) :
    last + delay ≤ now + (rate_limit delay ⟨last⟩ now).1
    ∧ (delay ≤ now - last → (rate_limit delay ⟨last⟩ now).1 = 0)
    ∧ ((rate_limit delay ⟨last⟩ now).2).last_request_time = now + (rate_limit delay ⟨last⟩ now).1
    ∧ (delay ≤ now → (rate_limit delay initRLState now).1 = 0) := by
  refine ⟨?_, ?_, ?_, ?_⟩
  · by_cases h : now - last < delay
    · simp only [rate_limit, if_pos h]; linarith
    · simp only [rate_limit, if_neg h]
      push_neg at h
      linarith
  · intro h
    have h' : ¬ (now - last < delay) := not_lt.mpr h
    simp [rate_limit, h']
  · by_cases h : now - last < delay <;> simp [rate_limit, h]
  · intro h
    have h' : ¬ (now < delay) := not_lt.mpr h
    simp [rate_limit, initRLState, h']

/-- C7, witness: with delay 0.34, a second call a full second later does
not sleep, and the very first call at clock 1000 does not sleep. -/
theorem rate_limit_min_interval_witness :
    (rate_limit (17/50) ⟨1000⟩ 2000).1 = 0
    ∧ (rate_limit (17/50) initRLState 1000).1 = 0 :=
  ⟨(rate_limit_min_interval (17/50) 1000 2000).2.1 (by norm_num),
   (rate_limit_min_interval (17/50) 1000 1000).2.2.2 (by norm_num)⟩

/-- C8: every `_make_request` call performs exactly one rate-limiter
acquisition, the first event of the call is that acquisition (so it
precedes the HTTP GET), and exactly one HTTP GET is issued. -/
theorem make_request_acquires_once_before_get (cfg : Config) (up : Upstream)
    (endpoint : String) (params : List (String × J)) :
    (make_request cfg up endpoint params).1.countP Event.isAcquire = 1
    ∧ (make_request cfg up endpoint params).1.head? = some Event.acquire
    ∧ (make_request cfg up endpoint params).1.countP Event.isHttpGet = 1 :=
  ⟨rfl, rfl, rfl⟩

/-- C9, counterexample: the `Config` dataclass performs no validation —
constructing it with the non-positive timeout `-1` succeeds (no
`ConfigurationError`), so a successfully constructed `Config` need not
satisfy `timeout > 0`. -/
theorem config_accepts_nonpositive_timeout :
    Config.construct "https://eutils.ncbi.nlm.nih.gov/entrez/eutils" none none (-1) (17/50)
      = .ok ⟨"https://eutils.ncbi.nlm.nih.gov/entrez/eutils", none, none, -1, 17/50⟩
    ∧ ¬ (0 < ((-1 : ℚ))) :=
  ⟨rfl, by norm_num⟩

/-- C9, amended: `Config` construction always succeeds and stores the
given field values unchanged; no value is rejected, so the invariants
`timeout > 0` and `request_delay ≥ 0` are not enforced at construction. -/
theorem config_construction_unvalidated (b : String) (e a : Option String) (t d : ℚ) :
    Config.construct b e a t d = .ok ⟨b, e, a, t, d⟩ := rfl

/-- C2, counterexample: the "record not found" failure of
`fetch_gene_info` is a plain `Exception`, the same exception class as the
non-2xx transport failure — there is no distinct `RecordNotFoundError`
kind by which a caller could tell "not found" from "server error". -/
theorem record_not_found_shares_exception_class_with_transport :
    (fetch_gene_info Config.default upEmptyResult "672").2 = .error (noDataGeneError "672")
    ∧ (fetch_gene_info Config.default up500 "672").2 = .error (statusError 500 "oops")
    ∧ errClass (fetch_gene_info Config.default upEmptyResult "672").2
        = errClass (fetch_gene_info Config.default up500 "672").2 :=
  ⟨rfl, rfl, rfl⟩

/-- C2, amended: when the keyed results mapping does not contain the
requested id, `fetch_gene_info` (resp. `fetch_protein_info`) fails with
the generic `Exception` carrying the "No data found" message; that error
has exception class "Exception", the same class as the non-2xx transport
error, so the two failure kinds are not distinguishable by type. -/
theorem fetch_missing_id_raises_generic_no_data_exception :
    (∀ (cfg : Config) (up : Upstream) (id : String) (fs rfs : List (String × J)),
      (make_request cfg up "esummary" [("db", .str "gene"), ("id", .str id)]).2
          = .ok (.obj fs) →
      jlookup "result" fs = some (.obj rfs) →
      jlookup id rfs = none →
      (fetch_gene_info cfg up id).2 = .error (noDataGeneError id))
    ∧ (∀ (cfg : Config) (up : Upstream) (id : String) (fs rfs : List (String × J)),
      (make_request cfg up "esummary" [("db", .str "protein"), ("id", .str id)]).2
          = .ok (.obj fs) →
      jlookup "result" fs = some (.obj rfs) →
      jlookup id rfs = none →
      (fetch_protein_info cfg up id).2 = .error (noDataProteinError id))
    ∧ (∀ id : String, (noDataGeneError id).cls = "Exception")
    ∧ (∀ (s : Nat) (t : String), (statusError s t).cls = "Exception") := by
  refine ⟨?_, ?_, fun _ => rfl, fun _ _ => rfl⟩
  · intro cfg up id fs rfs h h1 h2
    rw [fetch_gene_info_val, h]
    exact parse_gene_notfound fs rfs id h1 (by rw [h2]; rfl)
  · intro cfg up id fs rfs h h1 h2
    rw [fetch_protein_info_val, h]
    exact parse_protein_notfound fs rfs id h1 (by rw [h2]; rfl)

/-- C2, witness: against an upstream whose result mapping is empty, both
fetch operations fail with the generic no-data exception. -/
theorem fetch_missing_id_raises_generic_no_data_exception_witness :
    (fetch_gene_info Config.default upEmptyResult "675").2 = .error (noDataGeneError "675")
    ∧ (fetch_protein_info Config.default upEmptyResult "NP_000537").2
        = .error (noDataProteinError "NP_000537") :=
  ⟨fetch_missing_id_raises_generic_no_data_exception.1 Config.default upEmptyResult "675"
      [("result", .obj [])] [] rfl rfl rfl,
   fetch_missing_id_raises_generic_no_data_exception.2.1 Config.default upEmptyResult "NP_000537"
      [("result", .obj [])] [] rfl rfl rfl⟩

/-- C10: a record that is present under the requested id but falsy (empty
dict, empty string, `null`, `0`, …) is treated exactly like an absent
record: both fetch operations raise the no-data exception instead of
building an entity from the empty record. -/
theorem fetch_falsy_record_treated_as_missing :
    (∀ (cfg : Config) (up : Upstream) (id : String) (fs rfs : List (String × J)) (v : J),
      (make_request cfg up "esummary" [("db", .str "gene"), ("id", .str id)]).2
          = .ok (.obj fs) →
      jlookup "result" fs = some (.obj rfs) →
      jlookup id rfs = some v →
      v.falsy = true →
      (fetch_gene_info cfg up id).2 = .error (noDataGeneError id))
    ∧ (∀ (cfg : Config) (up : Upstream) (id : String) (fs rfs : List (String × J)) (v : J),
      (make_request cfg up "esummary" [("db", .str "protein"), ("id", .str id)]).2
          = .ok (.obj fs) →
      jlookup "result" fs = some (.obj rfs) →
      jlookup id rfs = some v →
      v.falsy = true →
      (fetch_protein_info cfg up id).2 = .error (noDataProteinError id)) := by
  constructor
  · intro cfg up id fs rfs v h h1 h2 hf
    rw [fetch_gene_info_val, h]
    exact parse_gene_notfound fs rfs id h1 (by rw [h2]; exact hf)
  · intro cfg up id fs rfs v h h1 h2 hf
    rw [fetch_protein_info_val, h]
    exact parse_protein_notfound fs rfs id h1 (by rw [h2]; exact hf)

/-- C10, witness: an empty-dict record under id "672" makes both fetch
operations raise the no-data exception. -/
theorem fetch_falsy_record_treated_as_missing_witness :
    (fetch_gene_info Config.default upFalsy672 "672").2 = .error (noDataGeneError "672")
    ∧ (fetch_protein_info Config.default upFalsy672 "672").2 = .error (noDataProteinError "672") :=
  ⟨fetch_falsy_record_treated_as_missing.1 Config.default upFalsy672 "672"
      [("result", .obj [("672", .obj [])])] [("672", .obj [])] (.obj []) rfl rfl rfl rfl,
   fetch_falsy_record_treated_as_missing.2 Config.default upFalsy672 "672"
      [("result", .obj [("672", .obj [])])] [("672", .obj [])] (.obj []) rfl rfl rfl rfl⟩

/-- C4: `search_by_gene_symbol` is a best-effort, partial-success
aggregation: its outcome is exactly the search outcome, where a
successful search yields exactly the successfully fetched `GeneInfo`
entries in id order (ids whose fetch raises are skipped) and only a
failing search makes the whole call fail.  On the fixture whose search
returns ids `["672","675"]` and whose summary endpoint has no record
under "675", the result is exactly the one gene fetched from "672". -/
theorem search_by_symbol_partial_success_aggregation :
    (∀ (cfg : Config) (up : Upstream) (symbol : String) (organism : Option String),
      (search_by_gene_symbol cfg up symbol organism).2 =
        match (search_genes cfg up (mkSymbolQuery symbol organism) 10).2 with
        | .error e => .error e
        | .ok s => .ok (s.ids.filterMap (fun id => ((fetch_gene_info cfg up id).2).toOption)))
    ∧ (search_by_gene_symbol Config.default upC4 "BRCA1" (some "human")).2 = .ok [gene672Info]
    ∧ (fetch_gene_info Config.default upC4 "675").2 = .error (noDataGeneError "675") := by
  refine ⟨?_, rfl, rfl⟩
  intro cfg up symbol organism
  rcases h : (search_genes cfg up (mkSymbolQuery symbol organism) 10).2 with e | s
  · simp [search_by_gene_symbol, h]
  · simp only [search_by_gene_symbol, h]
    rw [symbolFold_genes]
    simp

/-- C3, counterexample: when the other-aliases field is absent, the
resulting `other_aliases` is `None` (null), not an empty sequence —
`bridge.py` maps an empty alias list to `None` before constructing the
entity. -/
theorem fetch_gene_absent_aliases_yields_none :
    (fetch_gene_info Config.default upNoAliases "672").2
      = .ok ⟨"672", "BRCA1", "", "Unknown", none, none, none, none, none⟩
    ∧ GeneInfo.other_aliases
        ⟨"672", "BRCA1", "", "Unknown", none, none, none, none, none⟩ = none :=
  ⟨rfl, rfl⟩

/-- C3, amended: the comma-joined string "TP53, p53, TRP53" normalizes to
`["TP53","p53","TRP53"]`; a non-empty sequence passes through unchanged;
but an absent or empty field yields `None` (null), not an empty
sequence. -/
theorem other_aliases_normalization :
    (∀ gfs : List (String × J),
      jlookup "otheraliases" gfs = some (.str "TP53, p53, TRP53") →
      otherAliasesField gfs = .ok (some ["TP53", "p53", "TRP53"]))
    ∧ (∀ (gfs : List (String × J)) (l : List String),
      jlookup "otheraliases" gfs = some (.arr (l.map J.str)) → l ≠ [] →
      otherAliasesField gfs = .ok (some l))
    ∧ (∀ gfs : List (String × J),
      jlookup "otheraliases" gfs = none →
      otherAliasesField gfs = .ok none)
    ∧ (∀ gfs : List (String × J),
      jlookup "otheraliases" gfs = some (.arr []) →
      otherAliasesField gfs = .ok none)
    ∧ (fetch_gene_info Config.default upAliases672 "672").2
        = .ok ⟨"672", "", "", "Unknown", none, none, none,
               some ["TP53", "p53", "TRP53"], none⟩ := by
  refine ⟨?_, ?_, ?_, ?_, rfl⟩
  · intro gfs h
    simp only [otherAliasesField, otherAliasesJ, h]
    rfl
  · intro gfs l h hne
    cases l with
    | nil => exact absurd rfl hne
    | cons a as =>
        simp only [otherAliasesField, otherAliasesJ, h, asStrList_map_str]
        rfl
  · intro gfs h
    simp only [otherAliasesField, otherAliasesJ, h]
    rfl
  · intro gfs h
    simp only [otherAliasesField, otherAliasesJ, h]
    rfl

/-- C3, witness: the three alias shapes — comma-joined string, non-empty
sequence, absent field — at concrete inputs. -/
theorem other_aliases_normalization_witness :
    otherAliasesField [("otheraliases", .str "TP53, p53, TRP53")]
        = .ok (some ["TP53", "p53", "TRP53"])
    ∧ otherAliasesField [("otheraliases", .arr [J.str "BRCC1"])] = .ok (some ["BRCC1"])
    ∧ otherAliasesField [] = .ok none :=
  ⟨other_aliases_normalization.1 _ rfl,
   other_aliases_normalization.2.1 [("otheraliases", .arr [J.str "BRCC1"])] ["BRCC1"]
     rfl (by simp),
   other_aliases_normalization.2.2.1 [] rfl⟩

/-- C5, counterexample: an unparsable `count` field makes `search_genes`
fail with `ValueError` — the normalization does not default it to 0. -/
theorem search_unparsable_count_raises_value_error :
    (search_genes Config.default upBadCount "BRCA1" 20).2
      = .error (valueError (.str "abc"))
    ∧ (valueError (.str "abc")).cls = "ValueError" :=
  ⟨rfl, rfl⟩

/-- C5, amended: the search normalization defaults `total_count` to 0
when the count field is absent (an unparsable count instead raises
`ValueError`), defaults `ids` to the empty sequence when the id-list
field is absent, and passes `query_translation` through as-is. -/
theorem parse_search_defaults_and_passthrough :
    (∀ (fs esfs : List (String × J)),
      jlookup "esearchresult" fs = some (.obj esfs) →
      jlookup "count" esfs = none →
      jlookup "idlist" esfs = none →
      jlookup "querytranslation" esfs = none →
      parse_search (.obj fs) = .ok ⟨0, [], none⟩)
    ∧ (∀ (fs esfs : List (String × J)) (c : J),
      jlookup "esearchresult" fs = some (.obj esfs) →
      jlookup "count" esfs = some c →
      pyInt c = none →
      parse_search (.obj fs) = .error (valueError c))
    ∧ (∀ (fs esfs : List (String × J)) (n : Int) (l : List String) (q : String),
      jlookup "esearchresult" fs = some (.obj esfs) →
      jlookup "count" esfs = some (.num n) →
      jlookup "idlist" esfs = some (.arr (l.map J.str)) →
      jlookup "querytranslation" esfs = some (.str q) →
      parse_search (.obj fs) = .ok ⟨n, l, some q⟩)
    ∧ (∀ fs : List (String × J),
      jlookup "esearchresult" fs = none →
      parse_search (.obj fs) = .ok ⟨0, [], none⟩) := by
  refine ⟨?_, ?_, ?_, ?_⟩
  · intro fs esfs h h1 h2 h3
    simp [parse_search, J.get, h, h1, h2, h3, bind, Except.bind, pyInt,
          asStrList, asOptStr]
    rfl
  · intro fs esfs c h h1 hpc
    simp [parse_search, J.get, h, h1, hpc, bind, Except.bind]
  · intro fs esfs n l q h h1 h2 h3
    simp [parse_search, J.get, h, h1, h2, h3, bind, Except.bind, pyInt,
          asStrList_map_str, asOptStr]
    rfl
  · intro fs h
    simp [parse_search, J.get, h, jlookup, bind, Except.bind, pyInt,
          asStrList, asOptStr]
    rfl

/-- C5, witness: the default, unparsable-count and passthrough shapes at
concrete inputs. -/
theorem parse_search_defaults_and_passthrough_witness :
    parse_search (.obj [("esearchresult", .obj [])]) = .ok ⟨0, [], none⟩
    ∧ parse_search (.obj [("esearchresult", .obj [("count", .str "abc")])])
        = .error (valueError (.str "abc"))
    ∧ parse_search (.obj [("esearchresult", .obj
        [("count", .num 7), ("idlist", .arr [.str "672"]),
         ("querytranslation", .str "BRCA1[gene]")])])
        = .ok ⟨7, ["672"], some "BRCA1[gene]"⟩
    ∧ parse_search (.obj []) = .ok ⟨0, [], none⟩ :=
  ⟨parse_search_defaults_and_passthrough.1 _ [] rfl rfl rfl rfl,
   parse_search_defaults_and_passthrough.2.1 _ [("count", .str "abc")] (.str "abc")
     rfl rfl rfl,
   parse_search_defaults_and_passthrough.2.2.1 _
     [("count", .num 7), ("idlist", .arr [.str "672"]),
      ("querytranslation", .str "BRCA1[gene]")] 7 ["672"] "BRCA1[gene]" rfl rfl rfl rfl,
   parse_search_defaults_and_passthrough.2.2.2 [] rfl⟩

/-- C6, counterexample: a malformed organism field — JSON `null` — is
stringified to "None", not mapped to "Unknown". -/
theorem fetch_gene_null_organism_stringified :
    (fetch_gene_info Config.default upOrgNull "672").2
      = .ok ⟨"672", "", "", "None", none, none, none, none, none⟩
    ∧ ("None" : String) ≠ "Unknown" :=
  ⟨rfl, by decide⟩

/-- C6, amended: a structured organism object yields its stored
scientific name ("Unknown" when the sub-field is missing); a bare string
is used verbatim; an absent organism field yields "Unknown"; but a
non-dict, non-string value is stringified Python-style (`null` becomes
"None"), not mapped to "Unknown". -/
theorem organism_resolution :
    (∀ (ofs : List (String × J)) (v : J),
      jlookup "scientificname" ofs = some v → organismNameOf (.obj ofs) = v)
    ∧ (∀ ofs : List (String × J),
      jlookup "scientificname" ofs = none → organismNameOf (.obj ofs) = .str "Unknown")
    ∧ (∀ s : String, organismNameOf (.str s) = .str s)
    ∧ organismNameOf .null = .str "None"
    ∧ (fetch_gene_info Config.default upOrgStr "672").2
        = .ok ⟨"672", "", "", "Homo sapiens", none, none, none, none, none⟩
    ∧ (fetch_gene_info Config.default upNoAliases "672").2
        = .ok ⟨"672", "BRCA1", "", "Unknown", none, none, none, none, none⟩ := by
  refine ⟨?_, ?_, fun _ => rfl, rfl, rfl, rfl⟩
  · intro ofs v h
    simp [organismNameOf, h]
  · intro ofs h
    simp [organismNameOf, h]

/-- C6, witness: the structured shape with and without the
scientific-name sub-field, at concrete inputs. -/
theorem organism_resolution_witness :
    organismNameOf (.obj [("scientificname", .str "Homo sapiens")]) = .str "Homo sapiens"
    ∧ organismNameOf (.obj []) = .str "Unknown" :=
  ⟨organism_resolution.1 _ _ rfl, organism_resolution.2.1 [] rfl⟩

end NCBIClient
